import Mathlib

/-!
Verification of the resume-bullet generator application
(`resume builder app/bulletpointchatbot.py`).

The program is embedded shallowly: Python strings become `List Char`,
Python string methods (`strip`, `lstrip`, `split`) become the explicit
list functions below, the remote text-generation call becomes an opaque
outcome parameter (`CallOutcome`), and Streamlit control flow
(`st.stop`, form submission) becomes explicit result types.  Outbound
network calls are counted explicitly so that "no remote call is issued"
is a provable statement.
-/

set_option autoImplicit false

namespace ResumeBot

/-- Python whitespace for `str.strip()` restricted to the ASCII range:
space, tab, newline, carriage return, vertical tab, form feed. -/
def pyIsSpace (c : Char) : Bool :=
  c = ' ' || c = '\t' || c = '\n' || c = '\r' || c = '\x0b' || c = '\x0c'

/-- `s.lstrip()` with no argument: drop leading whitespace. -/
def pyStripL (l : List Char) : List Char :=
  l.dropWhile pyIsSpace

/-- `s.rstrip()` with no argument: drop trailing whitespace. -/
def pyStripR (l : List Char) : List Char :=
  (l.reverse.dropWhile pyIsSpace).reverse

/-- Python `s.strip()`: drop leading and trailing whitespace. -/
def pyStrip (l : List Char) : List Char :=
  pyStripR (pyStripL l)

/-- Python `s.lstrip(chars)`: drop the leading run of characters drawn
from `chars`. -/
def pyLstrip (chars : List Char) (l : List Char) : List Char :=
  l.dropWhile (fun c => chars.contains c)

/-- Python `s.split('\n')`: split on every newline; the empty string
splits to `[""]`. -/
def splitNl : List Char → List (List Char)
  | [] => [[]]
  | c :: rest =>
    if c = '\n' then [] :: splitNl rest
    else
      match splitNl rest with
      | [] => [[c]]
      | h :: t => (c :: h) :: t

/-- The characters of `cleaned_bullet.lstrip('-*')` in the cleanup loop. -/
def markerChars : List Char := ['-', '*']

/-- The characters of `cleaned_bullet.lstrip('0123456789. ')` in the
cleanup loop. -/
def numberChars : List Char := "0123456789. ".toList

/-- The per-bullet cleanup of the display loop:
`cleaned_bullet = bullet.strip()`;
`cleaned_bullet = cleaned_bullet.lstrip('-*').strip()`;
`if cleaned_bullet and cleaned_bullet[0].isdigit(): cleaned_bullet =
cleaned_bullet.lstrip('0123456789. ').strip()`. -/
def cleanBullet (bullet : List Char) : List Char :=
  match pyStrip (pyLstrip markerChars (pyStrip bullet)) with
  | [] => []
  | c :: rest => if c.isDigit then pyStrip (pyLstrip numberChars (c :: rest)) else c :: rest

/-- The bullets that survive the cleanup loop (those rendered as `<li>`
items), in order: each raw line is cleaned, and lines that became empty
are dropped (`if cleaned_bullet:` keeps only truthy strings). -/
def bulletItems (bullets : List (List Char)) : List (List Char) :=
  (bullets.map cleanBullet).filter (fun b => !b.isEmpty)

/-- The accumulator loop building `bullet_html`: starting from the
accumulated markup, each bullet is cleaned and, when non-empty, appended
as `<li>...</li>`; `"</ul>"` is appended after the loop. -/
def bulletHtmlAux : List (List Char) → List Char → List Char
  | [], acc => acc ++ "</ul>".toList
  | b :: rest, acc =>
    let cb := cleanBullet b
    if cb.isEmpty then bulletHtmlAux rest acc
    else bulletHtmlAux rest (acc ++ ("<li>".toList ++ cb ++ "</li>".toList))

/-- `bullet_html`: the markup string built by the display loop, starting
from `"<ul>"`. -/
def bullet_html (bullets : List (List Char)) : List Char :=
  bulletHtmlAux bullets "<ul>".toList

/-- The Formatter of the spec: the success path of
`generate_resume_bullets` (`response.text.strip().split('\n')`)
followed by the cleanup loop's keep/drop filtering. -/
def format_response (raw : List Char) : List (List Char) :=
  bulletItems (splitNl (pyStrip raw))

/-- Outcome of the single remote `generate_content` call: either a text
blob, a raised `APIError` (with its rendered detail `str(e)`), or any
other raised `Exception` (with its rendered detail). -/
inductive CallOutcome where
  | success (text : List Char)
  | apiError (detail : List Char)
  | otherError (detail : List Char)
deriving DecidableEq

/-- Result of `generate_resume_bullets`, together with the number of
outbound remote calls the invocation issued (modelling its one side
effect). -/
structure GenResult where
  bullets : List (List Char)
  remoteCalls : Nat
  request : List Char × List Char
deriving DecidableEq

/-- The fallback applicant name: `'An experienced professional'`. -/
def fallbackName : List Char := "An experienced professional".toList

/-- The fixed system instruction string of `generate_resume_bullets`. -/
def system_prompt : List Char :=
  ("You are an expert career coach specializing in high-impact resume writing. " ++
   "Your task is to generate 5 powerful, job-specific resume bullet points. " ++
   "Each bullet MUST start with a strong action verb (past tense), quantify results, " ++
   "and follow the STAR method (Situation, Task, Action, Result) format where possible. " ++
   "The output MUST be a clean, unformatted list of exactly 5 bullet points, separated by newlines.").toList

/-- Literal f-string segment before the job title. -/
def upSeg1 : List Char :=
  "\n    Generate the 5 resume bullet points for the following profile:\n    - Target Job Title: ".toList

/-- Literal f-string segment before the joined skills. -/
def upSeg2 : List Char := "\n    - Key Skills to Emphasize: ".toList

/-- Literal f-string segment before the applicant name. -/
def upSeg3 : List Char := "\n    - Applicant Name (for context): ".toList

/-- Literal f-string segment closing the message. -/
def upSeg4 : List Char := "\n    ".toList

/-- The interpolated user message of `generate_resume_bullets` (the
triple-quoted f-string, with its literal indentation and newlines):
`{job_title}`, `{', '.join(skills_list)}` and
`{name if name else 'An experienced professional'}` interpolated between
the literal segments. -/
def user_prompt (name job_title : List Char) (skills_list : List (List Char)) : List Char :=
  upSeg1 ++ job_title ++
  upSeg2 ++ List.intercalate (", ".toList) skills_list ++
  upSeg3 ++ (if name = [] then fallbackName else name) ++
  upSeg4

/-- The `APIError` handler's message:
`f"An API Error occurred: Please check your API key or network status. Details: {e}"`. -/
def apiErrorMsg (detail : List Char) : List Char :=
  "An API Error occurred: Please check your API key or network status. Details: ".toList ++ detail

/-- The generic handler's message:
`f"An unexpected error occurred: {e}"`. -/
def otherErrorMsg (detail : List Char) : List Char :=
  "An unexpected error occurred: ".toList ++ detail

/-- `generate_resume_bullets(name, job_title, skills_list)`: issues one
remote call (whose outcome is the opaque parameter `call`); on success
returns `response.text.strip().split('\n')`; on `APIError` or any other
exception returns the corresponding one-element message list. -/
def generate_resume_bullets (name job_title : List Char) (skills_list : List (List Char))
    (call : CallOutcome) : GenResult :=
  let req := (system_prompt, user_prompt name job_title skills_list)
  match call with
  | .success text => { bullets := splitNl (pyStrip text), remoteCalls := 1, request := req }
  | .apiError detail => { bullets := [apiErrorMsg detail], remoteCalls := 1, request := req }
  | .otherError detail => { bullets := [otherErrorMsg detail], remoteCalls := 1, request := req }

/-- The submission handler's skills parsing:
`[s.strip() for s in skills_input.split('\n') if s.strip()]`. -/
def parse_skills (skills_input : List Char) : List (List Char) :=
  (splitNl skills_input).filterMap (fun s => if pyStrip s = [] then none else some (pyStrip s))

/-- Outcome of one form submission: either the inline validation error
(`st.error(...)`, no generation), or the rendered result (the returned
bullets and the `bullet_html` markup shown). -/
inductive SubmitResult where
  | validationError
  | rendered (bullets : List (List Char)) (html : List Char)
deriving DecidableEq

/-- The `if submitted:` handler: parse the skills, validate
(`if not job_title or not skills_list:`), and otherwise call
`generate_resume_bullets` and render.  The second component counts the
outbound remote calls the submission caused. -/
def handle_submission (user_name job_title skills_input : List Char)
    (call : CallOutcome) : SubmitResult × Nat :=
  let skills_list := parse_skills skills_input
  if job_title = [] ∨ skills_list = [] then (.validationError, 0)
  else
    let g := generate_resume_bullets user_name job_title skills_list call
    (.rendered g.bullets (bullet_html g.bullets), g.remoteCalls)

/-- Outcome of the module-level startup code: either `st.stop()` was
reached after `st.error(message)`, or execution continues to the UI. -/
inductive StartupResult where
  | stopped (message : List Char)
  | running
deriving DecidableEq

/-- The startup error shown when the key is missing. -/
def keyMissingMsg : List Char :=
  "❌ GEMINI_API_KEY not found. Please set it as an environment variable (Secret) to run the app.".toList

/-- The startup error shown when client configuration raises:
`f"Failed to configure Gemini client: {e}"`. -/
def configFailMsg (e : List Char) : List Char :=
  "Failed to configure Gemini client: ".toList ++ e

/-- The startup block: `API_KEY = os.environ.get("GEMINI_API_KEY")`;
`if API_KEY:` configure (any raised exception stops with the
configuration message) `else:` report the missing key and stop.
`api_key` is the environment lookup result (`none` when the variable is
absent); `configure_error` is the outcome of `genai.configure`
(`some e` when it raises with rendered detail `e`). -/
def startup (api_key : Option (List Char)) (configure_error : Option (List Char)) : StartupResult :=
  match api_key with
  | none => .stopped keyMissingMsg
  | some k =>
    if k = [] then .stopped keyMissingMsg
    else
      match configure_error with
      | some e => .stopped (configFailMsg e)
      | none => .running

/-- Total number of outbound remote calls the process issues:
`st.stop()` halts the script before the form is rendered, so a stopped
startup processes no submission; otherwise an optional submission
`(name, job_title, skills_input, call outcome)` is handled. -/
def app_remote_calls (api_key : Option (List Char)) (configure_error : Option (List Char))
    (submission : Option (List Char × List Char × List Char × CallOutcome)) : Nat :=
  match startup api_key configure_error with
  | .stopped _ => 0
  | .running =>
    match submission with
    | none => 0
    | some (n, jt, si, call) => (handle_submission n jt si call).2

/-! ### Helper lemmas -/

/-- A non-empty `dropWhile` result starts with an element failing the
predicate. -/
theorem head_dropWhile_false {α : Type} (p : α → Bool) :
    ∀ (l : List α) (c : α) (rest : List α), l.dropWhile p = c :: rest → p c = false := by
  intro l
  induction l with
  | nil => intro c rest h; simp [List.dropWhile] at h
  | cons a t ih =>
    intro c rest h
    by_cases ha : p a
    · rw [List.dropWhile_cons_of_pos ha] at h
      exact ih c rest h
    · rw [List.dropWhile_cons_of_neg ha] at h
      cases h
      exact Bool.of_not_eq_true ha

/-- `dropWhile` removes an initial segment: the original list is that
segment followed by the result. -/
theorem exists_append_dropWhile {α : Type} (p : α → Bool) :
    ∀ l : List α, ∃ s : List α, l = s ++ l.dropWhile p := by
  intro l
  induction l with
  | nil => exact ⟨[], rfl⟩
  | cons a t ih =>
    by_cases ha : p a
    · obtain ⟨s, hs⟩ := ih
      rw [List.dropWhile_cons_of_pos ha]
      exact ⟨a :: s, by rw [List.cons_append, ← hs]⟩
    · rw [List.dropWhile_cons_of_neg ha]
      exact ⟨[], rfl⟩

/-- If every element satisfies the predicate, `dropWhile` empties the
list. -/
theorem dropWhile_eq_nil_of_all {α : Type} (p : α → Bool) :
    ∀ l : List α, (∀ c ∈ l, p c = true) → l.dropWhile p = [] := by
  intro l
  induction l with
  | nil => intro _; rfl
  | cons a t ih =>
    intro h
    rw [List.dropWhile_cons_of_pos (h a (List.mem_cons_self a t))]
    exact ih fun c hc => h c (List.mem_cons_of_mem a hc)

/-- A non-empty stripped string starts with a non-whitespace character. -/
theorem pyStrip_head_nonspace (x : List Char) (h : pyStrip x ≠ []) :
    ∃ c rest, pyStrip x = c :: rest ∧ pyIsSpace c = false := by
  have hy : pyStripL x ≠ [] := by
    intro hnil
    apply h
    unfold pyStrip
    rw [hnil]
    rfl
  obtain ⟨c, rest, hcr⟩ : ∃ c rest, pyStripL x = c :: rest := by
    cases hx : pyStripL x with
    | nil => exact absurd hx hy
    | cons c rest => exact ⟨c, rest, rfl⟩
  have hc : pyIsSpace c = false := head_dropWhile_false pyIsSpace x c rest hcr
  obtain ⟨s, hs⟩ := exists_append_dropWhile pyIsSpace (pyStripL x).reverse
  have hpre : pyStripL x = pyStrip x ++ s.reverse := by
    have := congrArg List.reverse hs
    rw [List.reverse_reverse, List.reverse_append] at this
    exact this
  cases hb : pyStrip x with
  | nil => exact absurd hb h
  | cons d ds =>
    refine ⟨d, ds, rfl, ?_⟩
    rw [hcr, hb] at hpre
    cases hpre
    exact hc

/-- Every non-empty `cleanBullet` output is some stripped string. -/
theorem cleanBullet_strip_image (b : List Char) :
    cleanBullet b = [] ∨ ∃ x, cleanBullet b = pyStrip x := by
  unfold cleanBullet
  cases h : pyStrip (pyLstrip markerChars (pyStrip b)) with
  | nil => exact Or.inl rfl
  | cons c rest =>
    by_cases hd : c.isDigit
    · exact Or.inr ⟨pyLstrip numberChars (c :: rest), by simp [hd]⟩
    · exact Or.inr ⟨pyLstrip markerChars (pyStrip b), by simp [hd, h]⟩

/-- `bulletHtmlAux` in closed form: the accumulator, the joined
`<li>` items of the surviving bullets, then `</ul>`. -/
theorem bulletHtmlAux_closed (bs : List (List Char)) :
    ∀ acc : List Char, bulletHtmlAux bs acc =
      acc ++ ((bulletItems bs).map (fun b => "<li>".toList ++ b ++ "</li>".toList)).flatten ++
        "</ul>".toList := by
  induction bs with
  | nil => intro acc; simp [bulletHtmlAux, bulletItems]
  | cons b rest ih =>
    intro acc
    by_cases hb : (cleanBullet b).isEmpty
    · rw [show bulletHtmlAux (b :: rest) acc = bulletHtmlAux rest acc by
        simp [bulletHtmlAux, hb]]
      rw [ih acc]
      simp [bulletItems, List.filter_cons, hb]
    · rw [show bulletHtmlAux (b :: rest) acc =
          bulletHtmlAux rest (acc ++ ("<li>".toList ++ cleanBullet b ++ "</li>".toList)) by
        simp [bulletHtmlAux, hb]]
      rw [ih]
      simp [bulletItems, List.filter_cons, hb, List.append_assoc]

/-! ### Claim theorems -/

/-- C1: when the remote call raises a provider-reported `APIError`,
`generate_resume_bullets` returns a one-element list whose single string
contains the underlying failure detail; when it raises any other
exception, it likewise returns a one-element message that contains the
detail.  The operation is a total function of the call outcome, so no
raised fault propagates to the caller. -/
theorem C1_requester_error_paths (name job_title detail : List Char)
    (skills_list : List (List Char)) :
    ((generate_resume_bullets name job_title skills_list (.apiError detail)).bullets.length = 1 ∧
      ∃ pre, (generate_resume_bullets name job_title skills_list (.apiError detail)).bullets =
        [pre ++ detail]) ∧
    ((generate_resume_bullets name job_title skills_list (.otherError detail)).bullets.length = 1 ∧
      ∃ pre, (generate_resume_bullets name job_title skills_list (.otherError detail)).bullets =
        [pre ++ detail]) :=
  ⟨⟨rfl, ⟨"An API Error occurred: Please check your API key or network status. Details: ".toList,
      rfl⟩⟩,
   ⟨rfl, ⟨"An unexpected error occurred: ".toList, rfl⟩⟩⟩

/-- C2: on the raw response text `"1. Did X\n- Did Y\n\n* Did Z"` the
Formatter yields exactly `["Did X", "Did Y", "Did Z"]`, and in general
the surviving lines appear in the original order of the cleaned split
lines (the survivors form a sublist). -/
theorem C2_formatter_example_and_order :
    format_response "1. Did X\n- Did Y\n\n* Did Z".toList =
      ["Did X".toList, "Did Y".toList, "Did Z".toList] ∧
    ∀ raw : List Char,
      List.Sublist (format_response raw) ((splitNl (pyStrip raw)).map cleanBullet) :=
  ⟨by decide, fun _ => List.filter_sublist _⟩

/-- C3: every rendered bullet is non-empty and contains a
non-whitespace character, and an empty or whitespace-only raw response
text yields no bullets at all. -/
theorem C3_bulletlist_nonblank :
    (∀ raw b : List Char, b ∈ format_response raw →
        b ≠ [] ∧ ∃ c ∈ b, pyIsSpace c = false) ∧
    (∀ raw : List Char, (∀ c ∈ raw, pyIsSpace c = true) → format_response raw = []) := by
  constructor
  · intro raw b hb
    unfold format_response bulletItems at hb
    rw [List.mem_filter] at hb
    obtain ⟨hmap, hne⟩ := hb
    have hbne : b ≠ [] := by
      intro hnil
      rw [hnil] at hne
      simp at hne
    refine ⟨hbne, ?_⟩
    rw [List.mem_map] at hmap
    obtain ⟨l, _, hl⟩ := hmap
    rcases cleanBullet_strip_image l with hnil | ⟨x, hx⟩
    · rw [hl] at hnil
      exact absurd hnil hbne
    · have hxs : pyStrip x ≠ [] := by
        rw [← hx, hl]
        exact hbne
      obtain ⟨c, rest, hcr, hc⟩ := pyStrip_head_nonspace x hxs
      refine ⟨c, ?_, hc⟩
      rw [← hl, hx, hcr]
      exact List.mem_cons_self c rest
  · intro raw hall
    have h1 : pyStripL raw = [] := dropWhile_eq_nil_of_all pyIsSpace raw hall
    have h2 : pyStrip raw = [] := by
      unfold pyStrip
      rw [h1]
      rfl
    unfold format_response
    rw [h2]
    decide

/-- Witness for C3 at concrete inputs. -/
theorem C3_bulletlist_nonblank_witness :
    ("Did X".toList ≠ [] ∧ ∃ c ∈ "Did X".toList, pyIsSpace c = false) ∧
    format_response "  \n\t ".toList = [] :=
  ⟨C3_bulletlist_nonblank.1 ("Did X".toList) ("Did X".toList) (by decide),
   C3_bulletlist_nonblank.2 ("  \n\t ".toList) (by decide)⟩

/-- C4: for non-empty job title and skills, the composed user message
contains the literal job title and the comma-joined rendering of the
skills (which lists every skill in its original order). -/
theorem C4_user_prompt_contains_inputs (name job_title : List Char)
    (skills_list : List (List Char)) (hjt : job_title ≠ []) (hsk : skills_list ≠ []) :
    (∃ pre post, user_prompt name job_title skills_list = pre ++ job_title ++ post) ∧
    (∃ pre post, user_prompt name job_title skills_list =
        pre ++ List.intercalate (", ".toList) skills_list ++ post) := by
  constructor
  · exact ⟨upSeg1,
      upSeg2 ++ List.intercalate (", ".toList) skills_list ++ upSeg3 ++
        (if name = [] then fallbackName else name) ++ upSeg4,
      by simp [user_prompt, List.append_assoc]⟩
  · exact ⟨upSeg1 ++ job_title ++ upSeg2,
      upSeg3 ++ (if name = [] then fallbackName else name) ++ upSeg4,
      by simp [user_prompt, List.append_assoc]⟩

/-- Witness for C4 at concrete inputs. -/
theorem C4_user_prompt_contains_inputs_witness :
    ("Data Analyst".toList ≠ [] ∧ (["SQL".toList, "Python".toList] : List (List Char)) ≠ []) ∧
    ((∃ pre post, user_prompt "Kim".toList "Data Analyst".toList
        ["SQL".toList, "Python".toList] = pre ++ "Data Analyst".toList ++ post) ∧
     (∃ pre post, user_prompt "Kim".toList "Data Analyst".toList
        ["SQL".toList, "Python".toList] =
        pre ++ List.intercalate (", ".toList) ["SQL".toList, "Python".toList] ++ post)) :=
  ⟨⟨by decide, by decide⟩,
   C4_user_prompt_contains_inputs "Kim".toList "Data Analyst".toList
     ["SQL".toList, "Python".toList] (by decide) (by decide)⟩

/-- C5: the composed user message embeds the fallback phrase
`"An experienced professional"` when the name is empty, and the name
itself when it is non-empty. -/
theorem C5_name_fallback (name job_title : List Char) (skills_list : List (List Char)) :
    (name = [] →
      ∃ pre post, user_prompt name job_title skills_list = pre ++ fallbackName ++ post) ∧
    (name ≠ [] →
      ∃ pre post, user_prompt name job_title skills_list = pre ++ name ++ post) := by
  constructor
  · intro h
    exact ⟨upSeg1 ++ job_title ++ upSeg2 ++ List.intercalate (", ".toList) skills_list ++ upSeg3,
      upSeg4, by simp [user_prompt, h, List.append_assoc]⟩
  · intro h
    exact ⟨upSeg1 ++ job_title ++ upSeg2 ++ List.intercalate (", ".toList) skills_list ++ upSeg3,
      upSeg4, by simp [user_prompt, h, List.append_assoc]⟩

/-- Witness for C5 at concrete inputs. -/
theorem C5_name_fallback_witness :
    (∃ pre post, user_prompt [] "Dev".toList ["SQL".toList] = pre ++ fallbackName ++ post) ∧
    (∃ pre post, user_prompt "Kim".toList "Dev".toList ["SQL".toList] =
        pre ++ "Kim".toList ++ post) :=
  ⟨(C5_name_fallback [] "Dev".toList ["SQL".toList]).1 rfl,
   (C5_name_fallback "Kim".toList "Dev".toList ["SQL".toList]).2 (by decide)⟩

/-- C6: an empty job title or an empty parsed skills list yields the
inline validation error with zero remote calls; when both are non-empty
the submission issues exactly one remote call and renders the generated
bullets. -/
theorem C6_validation_gates_remote_call (user_name job_title skills_input : List Char)
    (call : CallOutcome) :
    (job_title = [] ∨ parse_skills skills_input = [] →
      handle_submission user_name job_title skills_input call =
        (SubmitResult.validationError, 0)) ∧
    (job_title ≠ [] → parse_skills skills_input ≠ [] →
      (handle_submission user_name job_title skills_input call).2 = 1 ∧
      (handle_submission user_name job_title skills_input call).1 =
        SubmitResult.rendered
          (generate_resume_bullets user_name job_title (parse_skills skills_input) call).bullets
          (bullet_html
            (generate_resume_bullets user_name job_title (parse_skills skills_input)
              call).bullets)) := by
  constructor
  · intro h
    simp only [handle_submission]
    rw [if_pos h]
  · intro h1 h2
    simp only [handle_submission]
    rw [if_neg (not_or.mpr ⟨h1, h2⟩)]
    exact ⟨by cases call <;> rfl, rfl⟩

/-- Witness for C6 at concrete inputs. -/
theorem C6_validation_gates_remote_call_witness :
    handle_submission [] [] "Python".toList (.success "x".toList) =
      (SubmitResult.validationError, 0) ∧
    (handle_submission [] "Dev".toList "Python".toList (.success "x".toList)).2 = 1 :=
  ⟨(C6_validation_gates_remote_call [] [] "Python".toList (.success "x".toList)).1 (Or.inl rfl),
   ((C6_validation_gates_remote_call [] "Dev".toList "Python".toList
      (.success "x".toList)).2 (by decide) (by decide)).1⟩

/-- C7: when the credential is absent from the environment, startup
stops with the missing-key report, and the process issues no remote
call regardless of any would-be submission. -/
theorem C7_missing_key_halts (configure_error : Option (List Char))
    (submission : Option (List Char × List Char × List Char × CallOutcome)) :
    startup none configure_error = .stopped keyMissingMsg ∧
    app_remote_calls none configure_error submission = 0 :=
  ⟨rfl, rfl⟩

/-- C8: the cleanup strips only one leading marker run and then one
conditional digit run, so the doubly-prefixed line `"1. - Did X"`
cleans to `"- Did X"`, and that residual-hyphen string is what the
Formatter renders. -/
theorem C8_double_prefix_residual :
    cleanBullet "1. - Did X".toList = "- Did X".toList ∧
    format_response "1. - Did X".toList = ["- Did X".toList] := by
  decide

/-- C9: whenever the trimmed, marker-stripped line starts with a digit,
the cleanup removes the entire leading run of digits, periods and
spaces — even genuine content, as on `"2023 sales grew 40 percent yoy"`
where the year is deleted. -/
theorem C9_digit_strip_eats_content :
    (∀ (l : List Char) (c : Char) (rest : List Char),
        pyStrip (pyLstrip markerChars (pyStrip l)) = c :: rest → c.isDigit = true →
        cleanBullet l = pyStrip (pyLstrip numberChars (c :: rest))) ∧
    format_response "2023 sales grew 40 percent yoy".toList =
      ["sales grew 40 percent yoy".toList] := by
  constructor
  · intro l c rest h hd
    unfold cleanBullet
    rw [h]
    simp [hd]
  · decide

/-- Witness for C9 at a concrete input. -/
theorem C9_digit_strip_eats_content_witness :
    cleanBullet "2023 boosted revenue".toList =
      pyStrip (pyLstrip numberChars ('2' :: "023 boosted revenue".toList)) :=
  C9_digit_strip_eats_content.1 ("2023 boosted revenue".toList) '2'
    ("023 boosted revenue".toList) (by decide) (by decide)

/-- C10: the rendered markup is exactly `"<ul>"`, then `"<li>" ++ b ++
"</li>"` for each surviving bullet `b` in order, then `"</ul>"`; each
bullet's characters are interpolated verbatim, with no escaping. -/
theorem C10_bullet_html_shape (bullets : List (List Char)) :
    bullet_html bullets =
      "<ul>".toList ++
      ((bulletItems bullets).map (fun b => "<li>".toList ++ b ++ "</li>".toList)).flatten ++
      "</ul>".toList :=
  bulletHtmlAux_closed bullets ("<ul>".toList)

end ResumeBot
